import Mathlib

/-!
Verification of the operation/workflow resolution engine of
`aria/parser/framework/elements/operation.py`.

The Python module is shallowly embedded below:

* Python dicts with string keys are association lists (`AttrDict`),
  preserving insertion order, as CPython dict item assignment does.
* Python values occurring in payloads are `PVal` (strings and nested dicts
  are the only shapes the engine itself constructs or inspects).
* Python exceptions become an explicit `ParseError` sum; a function that can
  raise returns `Except ParseError _`.
* Python `None` becomes `Option.none`; `x or y` on strings/dicts is embedded
  by the `strOr` / `payloadOrEmpty` helpers (empty string and empty dict are
  falsy, like in Python).
* `copy.deepcopy(operation_payload or {})` (operation.py line 237) is
  embedded by binding a fresh value; all subsequent writes target that
  binding.  To make the caller-visible aliasing explicit, `process_operation`
  returns, next to its `Except` result, the final state of the caller's
  payload object (`POOutcome.callerPayload`): a branch that mutated the
  caller's dict in place would have to return the mutated dict there.
* The resource-existence probe `uri_exists` is external to the module and is
  passed in as a boolean predicate, exactly as the spec describes it.
-/

/-- A Python value as manipulated by the engine: a string, or a
string-keyed dict of values (used for the wrapped workflow parameter). -/
inductive PVal where
  | vStr (s : String)
  | vDict (entries : List (String × PVal))

/-- A Python dict with string keys, as an insertion-ordered association list. -/
abbrev AttrDict := List (String × PVal)

/-- One plugin registry entry: `{executor?: string}`.  `none` models an
absent (or `None`-valued) `executor` key. -/
structure PluginInfo where
  executor : Option String

/-- The plugin registry: plugin-name → `PluginInfo`, insertion ordered
(`plugins.keys()` iterates in this order). -/
abbrev Plugins := List (String × PluginInfo)

/-- The already-parsed operation/workflow declaration record handed to
`process_operation` as `operation_content`.  The source reads the
`implementation` key for operations and the `mapping` key for workflows
(lines 184-187); both are carried here, with `""` / `none` for fields
absent from a given declaration. -/
structure OperationContent where
  implementation : String := ""
  mapping : String := ""
  inputs : Option AttrDict := none
  parameters : Option AttrDict := none
  executor : Option String := none
  max_retries : Option Int := none
  retry_interval : Option Rat := none

/-- The exceptions raised by the module: `DSLParsingLogicException(code,
message)` (the structured document error), plain `ValueError(message)`,
`RuntimeError(message)`, Python `KeyError`, and the minimum-version
failure raised by the framework helper `validate_version`. -/
inductive ParseError where
  | dslParsingLogicException (code : Nat) (message : String)
  | valueError (message : String)
  | runtimeError (message : String)
  | keyError (key : String)
  | versionMismatch (version minimum : Nat × Nat)
deriving DecidableEq

/-- The dict built by `_operation` (operation.py lines 303-319). -/
structure ResolvedOperation where
  name : String
  plugin : String
  operation : String
  executor : String
  inputs : Option AttrDict
  has_intrinsic_functions : Bool
  max_retries : Option Int
  retry_interval : Option Rat

/-- The dict built by `_workflow_operation` (operation.py lines 322-329). -/
structure ResolvedWorkflowOperation where
  plugin : String
  operation : String
  parameters : Option AttrDict

/-- The descriptor returned by `process_operation`: an operation or a
workflow result, depending on `is_workflows`. -/
inductive ProcessResult where
  | op (r : ResolvedOperation)
  | wf (r : ResolvedWorkflowOperation)

/-- Full outcome of one `process_operation` call: the returned value or
raised exception, together with the final state of the caller's payload
object (see the module comment on aliasing). -/
structure POOutcome where
  result : Except ParseError ProcessResult
  callerPayload : Option AttrDict

/-- Python `v or d` for an optional string context: `None` and `""` are
falsy. -/
def strOr (v : Option String) (d : String) : String :=
  match v with
  | none => d
  | some s => if s = "" then d else s

/-- Python `p or {}` for an optional dict: `None` is falsy, and the empty
dict is its own replacement. -/
def payloadOrEmpty (p : Option AttrDict) : AttrDict :=
  match p with
  | none => []
  | some d => d

/-- Python `k in d` for a string-keyed dict. -/
def hasKey {β : Type} (d : List (String × β)) (k : String) : Bool :=
  d.any fun e => e.1 = k

/-- Python `d[k] = v` / `d.update({k: v})`: replace in place when the key
exists, append otherwise. -/
def dictSet (d : AttrDict) (k : String) (v : PVal) : AttrDict :=
  if hasKey d k then d.map (fun e => if e.1 = k then (k, v) else e)
  else d ++ [(k, v)]

/-- Python `s.startswith(p)` on character sequences. -/
def pyStartswith (s p : String) : Bool :=
  p.data.isPrefixOf s.data

/-- Python `s[n:]` on character sequences. -/
def pySlice (s : String) (n : Nat) : String :=
  ⟨s.data.drop n⟩

/-- Python `repr` of a list of strings, as produced by `'{1}'.format(...)`
on `candidate_plugins`. -/
def pyReprList (l : List String) : String :=
  "[" ++ String.intercalate ", " (l.map fun s => "\x27" ++ s ++ "\x27") ++ "]"

/-- Modelled from the spec: the reserved identifiers of the out-of-src
`constants` module ("local-agent executor name; script-plugin name;
run-script and execute-workflow-script task identifiers; reserved
script-path property key").  Only their identity and distinctness matter
to the engine. -/
def LOCAL_AGENT : String := "local-agent"

/-- Modelled from the spec: the script plugin registry name. -/
def SCRIPT_PLUGIN_NAME : String := "script"

/-- Modelled from the spec: the fixed run-script task identifier. -/
def SCRIPT_PLUGIN_RUN_TASK : String := "script_runner.tasks.run"

/-- Modelled from the spec: the fixed execute-workflow-script task
identifier. -/
def SCRIPT_PLUGIN_EXECUTE_WORKFLOW_TASK : String :=
  "script_runner.tasks.execute_workflow"

/-- Modelled from the spec: the reserved script-path property key. -/
def SCRIPT_PATH_PROPERTY : String := "script_path"

/-- `'workflow' if is_workflows else 'operation'`, used in several
messages. -/
def kindName (is_workflows : Bool) : String :=
  if is_workflows then "workflow" else "operation"

/-- Lexicographic "document version is below the minimum" test on
`(major, minor)` pairs. -/
def versionTooLow (version minimum : Nat × Nat) : Bool :=
  version.1 < minimum.1 || (version.1 == minimum.1 && version.2 < minimum.2)

/-- Modelled from the spec: the framework helper `self.validate_version`
(not under src/; operation.py only calls it).  Per the spec it "requires
version ≥ 1.1" when invoked with minimum `(1, 1)`, failing with a
version-gate error below the minimum. -/
def Element.validate_version (version minimum : Nat × Nat) :
    Except ParseError Unit :=
  if versionTooLow version minimum then
    .error (.versionMismatch version minimum)
  else .ok ()

/-- Message of the `ValueError` raised for `max_retries` below −1
(operation.py lines 76-80). -/
def maxRetriesBoundMessage (name : String) (value : Int) : String :=
  "\x27" ++ name ++ "\x27 value must be either -1 to specify " ++
  "unlimited retries or a non negative number but " ++
  "got " ++ toString value ++ "."

/-- Message of the `ValueError` raised for a negative `retry_interval`
(operation.py lines 97-99). -/
def retryIntervalBoundMessage (name : String) (value : Rat) : String :=
  "\x27" ++ name ++ "\x27 value must be a non negative number but " ++
  "got " ++ toString value ++ "."

/-- `OperationMaxRetries.validate` (operation.py lines 69-80).  `name` is
`self.name` (the schema key, `"max_retries"`); `initial_value` is the
declared value, `none` when undeclared; `validate_version` is the
caller-supplied version-gate flag.  An exception raised by the
version-gate call aborts the validator before the bound check, which the
inner `match` embeds. -/
def OperationMaxRetries.validate (name : String) (initial_value : Option Int)
    (version : Nat × Nat) (validate_version : Bool) :
    Except ParseError Unit :=
  match initial_value with
  | none => .ok ()
  | some value =>
    match (if validate_version then Element.validate_version version (1, 1)
           else .ok ()) with
    | .error e => .error e
    | .ok _ =>
      if value < -1 then
        .error (.valueError (maxRetriesBoundMessage name value))
      else .ok ()

/-- `OperationRetryInterval.validate` (operation.py lines 90-99); the
declared value is numeric (`int`/`float`), embedded as `Rat`. -/
def OperationRetryInterval.validate (name : String)
    (initial_value : Option Rat) (version : Nat × Nat)
    (validate_version : Bool) : Except ParseError Unit :=
  match initial_value with
  | none => .ok ()
  | some value =>
    match (if validate_version then Element.validate_version version (1, 1)
           else .ok ()) with
    | .error e => .error e
    | .ok _ =>
      if value < 0 then
        .error (.valueError (retryIntervalBoundMessage name value))
      else .ok ()

/-- The mapping string `operation_content[mapping_field_name]`
(operation.py lines 185-186). -/
def mappingOf (c : OperationContent) (is_workflows : Bool) : String :=
  if is_workflows then c.mapping else c.implementation

/-- The payload `operation_content[payload_field_name]` (operation.py
lines 184, 187). -/
def payloadOf (c : OperationContent) (is_workflows : Bool) :
    Option AttrDict :=
  if is_workflows then c.parameters else c.inputs

/-- `candidate_plugins` (operation.py lines 208-210): every registered
plugin name `p` with `operation_mapping.startswith(p + '.')`. -/
def candidatePlugins (plugins : Plugins) (operation_mapping : String) :
    List String :=
  (plugins.map Prod.fst).filter fun p =>
    pyStartswith operation_mapping (p ++ ".")

/-- `_resource_exists` (operation.py lines 299-300), over the external
`uri_exists` predicate. -/
def _resource_exists (uri_exists : String → Bool)
    (resource_base resource_name : String) : Bool :=
  uri_exists (resource_base ++ "/" ++ resource_name)

/-- `resource_base and _resource_exists(resource_base, operation_mapping)`
(operation.py line 236); `resource_base` is falsy when `None` or empty. -/
def resourceFallbackCondition (uri_exists : String → Bool)
    (resource_base : Option String) (operation_mapping : String) : Bool :=
  match resource_base with
  | none => false
  | some base => base ≠ "" && _resource_exists uri_exists base operation_mapping

/-- Message of the `DSLParsingLogicException(91, ...)` ambiguous-mapping
error (operation.py lines 213-216). -/
def ambiguousMappingMessage (operation_name : String)
    (candidates : List String) : String :=
  "Ambiguous operation mapping. [operation=" ++ operation_name ++
  ", plugins=" ++ pyReprList candidates ++ "]"

/-- Message of the `DSLParsingLogicException(60, ...)` reserved-property
collision error (operation.py lines 239-244). -/
def scriptPathCollisionMessage (operation_mapping : String)
    (is_workflows : Bool) (operation_name : String) : String :=
  "Cannot define \x27" ++ SCRIPT_PATH_PROPERTY ++ "\x27 property in \x27" ++
  operation_mapping ++ "\x27 for " ++ kindName is_workflows ++ " \x27" ++
  operation_name ++ "\x27"

/-- Message of the `DSLParsingLogicException(61, ...)` missing-script-plugin
error (operation.py lines 260-267); note the source formats the already
rewritten mapping here. -/
def missingScriptPluginMessage (operation_mapping : String)
    (is_workflows : Bool) (operation_name : String) : String :=
  "Script plugin is not defined but it is required for mapping \x27" ++
  operation_mapping ++ "\x27 of " ++ kindName is_workflows ++ " \x27" ++
  operation_name ++ "\x27"

/-- Base message of the final unresolved-mapping error (operation.py
lines 289-294). -/
def couldNotExtractMessage (operation_mapping operation_name : String)
    (is_workflows : Bool) : String :=
  "Could not extract plugin from " ++ kindName is_workflows ++
  " mapping \x27" ++ operation_mapping ++ "\x27, which is declared for " ++
  kindName is_workflows ++ " \x27" ++ operation_name ++ "\x27. "

/-- Message of the `RuntimeError` for an empty workflow mapping
(operation.py lines 196-197); the two adjacent Python string literals
join without a space, exactly as in the source. -/
def illegalStateMessage : String :=
  "Illegal state. workflow mapping should alwaysbe defined " ++
  "(enforced by schema validation)"

/-- The parameter record injected for workflows (operation.py lines
249-255). -/
def workflowScriptParameter (script_path : String) : PVal :=
  .vDict [("default", .vStr script_path),
          ("description", .vStr "Workflow script executed by the script plugin")]

/-- `_operation` (operation.py lines 303-319). -/
def _operation (name plugin_name operation_mapping : String)
    (operation_inputs : Option AttrDict) (executor : String)
    (max_retries : Option Int) (retry_interval : Option Rat) :
    ResolvedOperation :=
  { name := name
    plugin := plugin_name
    operation := operation_mapping
    executor := executor
    inputs := operation_inputs
    has_intrinsic_functions := false
    max_retries := max_retries
    retry_interval := retry_interval }

/-- `_workflow_operation` (operation.py lines 322-329). -/
def _workflow_operation (plugin_name workflow_mapping : String)
    (workflow_parameters : Option AttrDict) : ResolvedWorkflowOperation :=
  { plugin := plugin_name
    operation := workflow_mapping
    parameters := workflow_parameters }

/-- `process_operation` (operation.py lines 176-296), embedded line by
line.  The three-way `match` on `candidatePlugins` realises the source's
`if candidate_plugins:` / `if len(candidate_plugins) > 1:` /
`candidate_plugins[0]` chain; `copy.deepcopy` is the fresh binding
`payloadCopy`; the dead `if not operation_executor:` guards (lines 225,
275 — `operation_executor` was already defaulted on lines 189-190)
are embedded faithfully, with Python `KeyError` for the direct
`plugins[...]['executor']` indexing of line 276. -/
def process_operation (uri_exists : String → Bool) (plugins : Plugins)
    (operation_name : String) (operation_content : OperationContent)
    (error_code : Nat) (partialErrorMessage : String)
    (resource_base : Option String) (is_workflows : Bool := false) :
    POOutcome :=
  let operation_mapping := mappingOf operation_content is_workflows
  let operation_payload := payloadOf operation_content is_workflows
  let operation_executor := strOr operation_content.executor LOCAL_AGENT
  let operation_max_retries := operation_content.max_retries
  let operation_retry_interval := operation_content.retry_interval
  if operation_mapping = "" then
    if is_workflows then
      ⟨.error (.runtimeError illegalStateMessage), operation_payload⟩
    else
      ⟨.ok (.op (_operation operation_name "" "" (some []) LOCAL_AGENT
        none none)), operation_payload⟩
  else
    match candidatePlugins plugins operation_mapping with
    | cp@(_ :: _ :: _) =>
      ⟨.error (.dslParsingLogicException 91
        (ambiguousMappingMessage operation_name cp)), operation_payload⟩
    | [plugin_name] =>
      let mapping := pySlice operation_mapping (plugin_name.length + 1)
      if is_workflows then
        ⟨.ok (.wf (_workflow_operation plugin_name mapping
          operation_payload)), operation_payload⟩
      else if operation_executor = "" then
        match plugins.lookup plugin_name with
        | none => ⟨.error (.keyError plugin_name), operation_payload⟩
        | some info =>
          ⟨.ok (.op (_operation operation_name plugin_name mapping
            operation_payload (strOr info.executor LOCAL_AGENT)
            operation_max_retries operation_retry_interval)),
           operation_payload⟩
      else
        ⟨.ok (.op (_operation operation_name plugin_name mapping
          operation_payload operation_executor
          operation_max_retries operation_retry_interval)),
         operation_payload⟩
    | [] =>
      if resourceFallbackCondition uri_exists resource_base operation_mapping
      then
        let payloadCopy := payloadOrEmpty operation_payload
        if hasKey payloadCopy SCRIPT_PATH_PROPERTY then
          ⟨.error (.dslParsingLogicException 60
            (scriptPathCollisionMessage operation_mapping is_workflows
              operation_name)), operation_payload⟩
        else
          let script_path := operation_mapping
          let operation_mapping2 :=
            if is_workflows then SCRIPT_PLUGIN_EXECUTE_WORKFLOW_TASK
            else SCRIPT_PLUGIN_RUN_TASK
          let payloadCopy2 :=
            if is_workflows then
              dictSet payloadCopy SCRIPT_PATH_PROPERTY
                (workflowScriptParameter script_path)
            else
              dictSet payloadCopy SCRIPT_PATH_PROPERTY (.vStr script_path)
          if ¬ hasKey plugins SCRIPT_PLUGIN_NAME then
            ⟨.error (.dslParsingLogicException 61
              (missingScriptPluginMessage operation_mapping2 is_workflows
                operation_name)), operation_payload⟩
          else if is_workflows then
            ⟨.ok (.wf (_workflow_operation SCRIPT_PLUGIN_NAME
              operation_mapping2 (some payloadCopy2))), operation_payload⟩
          else if operation_executor = "" then
            match plugins.lookup SCRIPT_PLUGIN_NAME with
            | none =>
              ⟨.error (.keyError SCRIPT_PLUGIN_NAME), operation_payload⟩
            | some info =>
              match info.executor with
              | none =>
                ⟨.error (.keyError "executor"), operation_payload⟩
              | some e =>
                ⟨.ok (.op (_operation operation_name SCRIPT_PLUGIN_NAME
                  operation_mapping2 (some payloadCopy2) e
                  operation_max_retries operation_retry_interval)),
                 operation_payload⟩
          else
            ⟨.ok (.op (_operation operation_name SCRIPT_PLUGIN_NAME
              operation_mapping2 (some payloadCopy2) operation_executor
              operation_max_retries operation_retry_interval)),
             operation_payload⟩
      else
        ⟨.error (.dslParsingLogicException error_code
          (couldNotExtractMessage operation_mapping operation_name
            is_workflows ++ partialErrorMessage)), operation_payload⟩

/-- `process_interface_operations` (operation.py lines 161-173). -/
def process_interface_operations (uri_exists : String → Bool)
    (interface : List (String × OperationContent)) (plugins : Plugins)
    (error_code : Nat) (partialErrorMessage : String)
    (resource_base : Option String) : List POOutcome :=
  interface.map fun e =>
    process_operation uri_exists plugins e.1 e.2 error_code
      partialErrorMessage resource_base false

/-- Whether a validation outcome is a raised `DSLParsingLogicException` —
the single structured, numeric-code-carrying exception kind of the
module's document errors. -/
def raisesStructuredCode (r : Except ParseError Unit) : Bool :=
  match r with
  | .error (.dslParsingLogicException _ _) => true
  | _ => false

/-! ### Helper lemmas -/

theorem strOr_ne_empty (v : Option String) (d : String) (h : d ≠ "") :
    strOr v d ≠ "" := by
  cases v with
  | none => exact h
  | some s =>
    simp only [strOr]
    split
    · exact h
    · rename_i hs
      exact hs

theorem local_agent_ne_empty : LOCAL_AGENT ≠ "" := by decide

theorem pyStartswith_iff (s p : String) :
    pyStartswith s p = true ↔ ∃ t : String, s = p ++ t := by
  unfold pyStartswith
  rw [List.isPrefixOf_iff_prefix]
  constructor
  · rintro ⟨t, ht⟩
    exact ⟨⟨t⟩, String.ext (by simpa using ht.symm)⟩
  · rintro ⟨t, rfl⟩
    exact ⟨t.data, by simp⟩

theorem mem_candidatePlugins (plugins : Plugins) (m p : String) :
    p ∈ candidatePlugins plugins m ↔
      p ∈ plugins.map Prod.fst ∧ ∃ rest : String, m = p ++ "." ++ rest := by
  unfold candidatePlugins
  rw [List.mem_filter, pyStartswith_iff]

theorem append_dot_ne_empty (p rest : String) : p ++ "." ++ rest ≠ "" := by
  intro h
  have hd := congrArg String.data h
  simp [String.data_append] at hd

theorem pySlice_strip (P rest : String) :
    pySlice (P ++ "." ++ rest) (P.length + 1) = rest := by
  apply String.ext
  show ((P ++ "." ++ rest)).data.drop (P.length + 1) = rest.data
  rw [String.data_append]
  have hlen : (P ++ ".").data.length = P.length + 1 := by
    rw [String.data_append, List.length_append]
    rfl
  exact List.drop_left' hlen

theorem hasKey_dictSet (d : AttrDict) (k : String) (v : PVal) :
    hasKey (dictSet d k v) k = true := by
  unfold dictSet
  split
  · rename_i h
    unfold hasKey at h ⊢
    rw [List.any_eq_true] at h ⊢
    obtain ⟨e, he, hek⟩ := h
    refine ⟨(k, v), List.mem_map.2 ⟨e, he, ?_⟩, by simp⟩
    simp only [decide_eq_true_eq] at hek
    simp [hek]
  · unfold hasKey
    rw [List.any_eq_true]
    exact ⟨(k, v), by simp, by simp⟩

/-- Reduction of `process_operation` in the single-candidate case
(operation.py lines 217-235). -/
theorem process_operation_single (u : String → Bool) (plugins : Plugins)
    (nm : String) (c : OperationContent) (ec : Nat) (pm : String)
    (rb : Option String) (wfs : Bool) (P : String)
    (hm : mappingOf c wfs ≠ "")
    (hcand : candidatePlugins plugins (mappingOf c wfs) = [P]) :
    process_operation u plugins nm c ec pm rb wfs =
      ⟨if wfs then
        .ok (.wf (_workflow_operation P
          (pySlice (mappingOf c wfs) (P.length + 1)) (payloadOf c wfs)))
       else
        .ok (.op (_operation nm P (pySlice (mappingOf c wfs) (P.length + 1))
          (payloadOf c wfs) (strOr c.executor LOCAL_AGENT)
          c.max_retries c.retry_interval)),
       payloadOf c wfs⟩ := by
  simp only [process_operation]
  rw [if_neg hm, hcand]
  cases wfs with
  | true => rfl
  | false =>
    simp only [if_neg (strOr_ne_empty c.executor LOCAL_AGENT
      local_agent_ne_empty)]
    rfl

/-- Reduction of `process_operation` when no plugin matches and the
resource condition of line 236 is false: the final unresolved-mapping
error (operation.py lines 286-296). -/
theorem process_operation_unresolved (u : String → Bool) (plugins : Plugins)
    (nm : String) (c : OperationContent) (ec : Nat) (pm : String)
    (rb : Option String) (wfs : Bool)
    (hm : mappingOf c wfs ≠ "")
    (hcand : candidatePlugins plugins (mappingOf c wfs) = [])
    (hres : resourceFallbackCondition u rb (mappingOf c wfs) = false) :
    process_operation u plugins nm c ec pm rb wfs =
      ⟨.error (.dslParsingLogicException ec
        (couldNotExtractMessage (mappingOf c wfs) nm wfs ++ pm)),
       payloadOf c wfs⟩ := by
  simp only [process_operation]
  rw [if_neg hm, hcand]
  simp [hres]

/-- Reduction of `process_operation` on the script fallback when the
payload already holds the reserved key (operation.py lines 238-245). -/
theorem process_operation_collision (u : String → Bool) (plugins : Plugins)
    (nm : String) (c : OperationContent) (ec : Nat) (pm : String)
    (rb : Option String) (wfs : Bool)
    (hm : mappingOf c wfs ≠ "")
    (hcand : candidatePlugins plugins (mappingOf c wfs) = [])
    (hres : resourceFallbackCondition u rb (mappingOf c wfs) = true)
    (hcol : hasKey (payloadOrEmpty (payloadOf c wfs)) SCRIPT_PATH_PROPERTY
      = true) :
    process_operation u plugins nm c ec pm rb wfs =
      ⟨.error (.dslParsingLogicException 60
        (scriptPathCollisionMessage (mappingOf c wfs) wfs nm)),
       payloadOf c wfs⟩ := by
  simp only [process_operation]
  rw [if_neg hm, hcand]
  simp [hres, hcol]

/-- Reduction of `process_operation` on the successful script fallback
(operation.py lines 236-285, collision and missing-plugin checks passed). -/
theorem process_operation_fallback (u : String → Bool) (plugins : Plugins)
    (nm : String) (c : OperationContent) (ec : Nat) (pm : String)
    (rb : Option String) (wfs : Bool)
    (hm : mappingOf c wfs ≠ "")
    (hcand : candidatePlugins plugins (mappingOf c wfs) = [])
    (hres : resourceFallbackCondition u rb (mappingOf c wfs) = true)
    (hcol : hasKey (payloadOrEmpty (payloadOf c wfs)) SCRIPT_PATH_PROPERTY
      = false)
    (hscript : hasKey plugins SCRIPT_PLUGIN_NAME = true) :
    process_operation u plugins nm c ec pm rb wfs =
      ⟨if wfs then
        .ok (.wf (_workflow_operation SCRIPT_PLUGIN_NAME
          SCRIPT_PLUGIN_EXECUTE_WORKFLOW_TASK
          (some (dictSet (payloadOrEmpty (payloadOf c wfs))
            SCRIPT_PATH_PROPERTY
            (workflowScriptParameter (mappingOf c wfs))))))
       else
        .ok (.op (_operation nm SCRIPT_PLUGIN_NAME SCRIPT_PLUGIN_RUN_TASK
          (some (dictSet (payloadOrEmpty (payloadOf c wfs))
            SCRIPT_PATH_PROPERTY (.vStr (mappingOf c wfs))))
          (strOr c.executor LOCAL_AGENT)
          c.max_retries c.retry_interval)),
       payloadOf c wfs⟩ := by
  simp only [process_operation]
  rw [if_neg hm, hcand]
  cases wfs with
  | true => simp [hres, hcol, hscript]
  | false =>
    simp [hres, hcol, hscript,
      strOr_ne_empty c.executor LOCAL_AGENT local_agent_ne_empty]

/-- Reduction of `process_operation` on the script fallback when the
script plugin is not registered (operation.py lines 259-267); the error
message formats the already rewritten task identifier. -/
theorem process_operation_noscript (u : String → Bool) (plugins : Plugins)
    (nm : String) (c : OperationContent) (ec : Nat) (pm : String)
    (rb : Option String) (wfs : Bool)
    (hm : mappingOf c wfs ≠ "")
    (hcand : candidatePlugins plugins (mappingOf c wfs) = [])
    (hres : resourceFallbackCondition u rb (mappingOf c wfs) = true)
    (hcol : hasKey (payloadOrEmpty (payloadOf c wfs)) SCRIPT_PATH_PROPERTY
      = false)
    (hscript : hasKey plugins SCRIPT_PLUGIN_NAME = false) :
    process_operation u plugins nm c ec pm rb wfs =
      ⟨.error (.dslParsingLogicException 61
        (missingScriptPluginMessage
          (if wfs then SCRIPT_PLUGIN_EXECUTE_WORKFLOW_TASK
           else SCRIPT_PLUGIN_RUN_TASK) wfs nm)),
       payloadOf c wfs⟩ := by
  simp only [process_operation]
  rw [if_neg hm, hcand]
  cases wfs with
  | true => simp [hres, hcol, hscript]
  | false => simp [hres, hcol, hscript]

/-! ### Claim theorems -/

/-- C4: for every mapping string matched by two or more registered plugin
names as dot-delimited prefixes, `process_operation` raises the
ambiguous-mapping document error (`DSLParsingLogicException(91, ...)`)
naming the operation and all candidate plugins; it never silently selects
one candidate and never returns a descriptor. -/
theorem C4_ambiguous_mapping (u : String → Bool) (plugins : Plugins)
    (nm : String) (c : OperationContent) (ec : Nat) (pm : String)
    (rb : Option String) (wfs : Bool) (q₁ q₂ : String) (qs : List String)
    (hm : mappingOf c wfs ≠ "")
    (hcand : candidatePlugins plugins (mappingOf c wfs) = q₁ :: q₂ :: qs) :
    (process_operation u plugins nm c ec pm rb wfs).result =
      .error (.dslParsingLogicException 91
        (ambiguousMappingMessage nm (q₁ :: q₂ :: qs))) := by
  simp only [process_operation]
  rw [if_neg hm, hcand]

/-- C4 witness: two plugins `p1` and `p1.r` both match mapping `p1.r.x`
as dot-delimited prefixes, and resolution raises error 91 listing both. -/
theorem C4_ambiguous_mapping_witness :
    mappingOf { implementation := "p1.r.x", inputs := some [] } false ≠ ""
    ∧ candidatePlugins [("p1", ⟨none⟩), ("p1.r", ⟨none⟩)]
        (mappingOf { implementation := "p1.r.x", inputs := some [] } false)
      = ["p1", "p1.r"]
    ∧ (process_operation (fun _ => false) [("p1", ⟨none⟩), ("p1.r", ⟨none⟩)]
        "op" { implementation := "p1.r.x", inputs := some [] } 10 "" none
        false).result =
      .error (.dslParsingLogicException 91
        (ambiguousMappingMessage "op" ["p1", "p1.r"])) :=
  ⟨by decide, rfl,
   C4_ambiguous_mapping (fun _ => false) [("p1", ⟨none⟩), ("p1.r", ⟨none⟩)]
     "op" { implementation := "p1.r.x", inputs := some [] } 10 "" none
     false "p1" "p1.r" [] (by decide) rfl⟩

/-- C5: for an empty mapping string, `process_operation` with
`is_workflows = false` returns (without error) the no-op descriptor
(given name, plugin `""`, operation `""`, inputs `{}`, executor
local-agent, `None` retry fields), while with `is_workflows = true` it
raises a `RuntimeError` (internal-consistency error), which is not the
structured document-error exception. -/
theorem C5_empty_mapping (u : String → Bool) (plugins : Plugins)
    (nm : String) (c : OperationContent) (ec : Nat) (pm : String)
    (rb : Option String) :
    (c.implementation = "" →
      process_operation u plugins nm c ec pm rb false =
        ⟨.ok (.op (_operation nm "" "" (some []) LOCAL_AGENT none none)),
         c.inputs⟩)
    ∧ (c.mapping = "" →
      process_operation u plugins nm c ec pm rb true =
        ⟨.error (.runtimeError illegalStateMessage), c.parameters⟩)
    ∧ (∀ code msg, ParseError.runtimeError illegalStateMessage ≠
        ParseError.dslParsingLogicException code msg) := by
  refine ⟨fun h => ?_, fun h => ?_, fun code msg => by simp⟩
  · simp only [process_operation, mappingOf, payloadOf]
    simp [h]
  · simp only [process_operation, mappingOf, payloadOf]
    simp [h]

/-- C5 witness: the wholly empty declaration, in both modes. -/
theorem C5_empty_mapping_witness :
    OperationContent.implementation {} = ""
    ∧ process_operation (fun _ => false) [] "op" {} 10 "" none false =
        ⟨.ok (.op (_operation "op" "" "" (some []) LOCAL_AGENT none none)),
         none⟩
    ∧ process_operation (fun _ => false) [] "op" {} 10 "" none true =
        ⟨.error (.runtimeError illegalStateMessage), none⟩ :=
  ⟨rfl,
   (C5_empty_mapping (fun _ => false) [] "op" {} 10 "" none).1 rfl,
   (C5_empty_mapping (fun _ => false) [] "op" {} 10 "" none).2.1 rfl⟩

/-- C3: the candidate set consists of exactly the registered plugin names
`P` such that the mapping starts with the segment `P` followed by a dot
(equivalently, the mapping is `P ++ "." ++ rest` — a dot-delimited prefix,
not a raw substring match); with exactly one candidate the result's
plugin is `P` and its operation is the mapping with the leading `P.`
removed; on `plugins = [p1 ↦ {executor: local}, p2 ↦ {}]` and mapping
`"p1.run"` the result is plugin `"p1"`, operation `"run"`. -/
theorem C3_candidate_set (u : String → Bool) (plugins : Plugins)
    (nm : String) (c : OperationContent) (ec : Nat) (pm : String)
    (rb : Option String) (P rest : String)
    (himpl : c.implementation = P ++ "." ++ rest)
    (hcand : candidatePlugins plugins c.implementation = [P]) :
    (∀ q m, q ∈ candidatePlugins plugins m ↔
      q ∈ plugins.map Prod.fst ∧ ∃ r : String, m = q ++ "." ++ r)
    ∧ (process_operation u plugins nm c ec pm rb false).result =
        .ok (.op (_operation nm P rest c.inputs
          (strOr c.executor LOCAL_AGENT) c.max_retries c.retry_interval))
    ∧ (process_operation (fun _ => false)
        [("p1", ⟨some "local"⟩), ("p2", ⟨none⟩)] "op"
        { implementation := "p1.run", inputs := some [] } 10 "" none
        false).result =
        .ok (.op { name := "op", plugin := "p1", operation := "run",
                   executor := LOCAL_AGENT, inputs := some [],
                   has_intrinsic_functions := false, max_retries := none,
                   retry_interval := none }) := by
  refine ⟨fun q m => mem_candidatePlugins plugins m q, ?_, by rfl⟩
  have hm : mappingOf c false ≠ "" := by
    simp only [mappingOf, if_neg Bool.false_ne_true, himpl]
    exact append_dot_ne_empty P rest
  have hc : candidatePlugins plugins (mappingOf c false) = [P] := by
    simpa [mappingOf] using hcand
  rw [process_operation_single u plugins nm c ec pm rb false P hm hc]
  simp [mappingOf, payloadOf, himpl, pySlice_strip]

/-- C3 witness: the spec's own example registry and mapping. -/
theorem C3_candidate_set_witness :
    (("p1.run" : String) = "p1" ++ "." ++ "run")
    ∧ candidatePlugins [("p1", ⟨some "local"⟩), ("p2", ⟨none⟩)] "p1.run"
        = ["p1"]
    ∧ (process_operation (fun _ => false)
        [("p1", ⟨some "local"⟩), ("p2", ⟨none⟩)] "op"
        { implementation := "p1.run", inputs := some [] } 10 "" none
        false).result =
        .ok (.op (_operation "op" "p1" "run" (some [])
          (strOr none LOCAL_AGENT) none none)) :=
  ⟨rfl, rfl,
   (C3_candidate_set (fun _ => false)
     [("p1", ⟨some "local"⟩), ("p2", ⟨none⟩)] "op"
     { implementation := "p1.run", inputs := some [] } 10 "" none
     "p1" "run" rfl rfl).2.1⟩

/-- C1 counterexample: registry entry `p1` supplies its own default
executor `host_agent`, the declaration declares none, `p1` is the unique
dot-delimited prefix candidate for mapping `p1.run` — yet the resolved
executor is local-agent, not the plugin's default, refuting the claim
that the candidate plugin's own default executor is used when the
registry supplies one. -/
theorem C1_counterexample :
    List.lookup "p1" [("p1", (⟨some "host_agent"⟩ : PluginInfo))]
      = some ⟨some "host_agent"⟩
    ∧ candidatePlugins [("p1", ⟨some "host_agent"⟩)] "p1.run" = ["p1"]
    ∧ OperationContent.executor
        { implementation := "p1.run", inputs := some [] } = none
    ∧ (process_operation (fun _ => false) [("p1", ⟨some "host_agent"⟩)]
        "op" { implementation := "p1.run", inputs := some [] } 10 "" none
        false).result =
      .ok (.op { name := "op", plugin := "p1", operation := "run",
                 executor := LOCAL_AGENT, inputs := some [],
                 has_intrinsic_functions := false, max_retries := none,
                 retry_interval := none })
    ∧ LOCAL_AGENT ≠ "host_agent" :=
  ⟨rfl, rfl, rfl, rfl, by decide⟩

/-- C1 (amended): for a single-candidate (non-workflow) mapping, an
undeclared executor always resolves to local-agent — the candidate
plugin's own default executor in the registry is never consulted, because
`process_operation` already defaults the declared executor to local-agent
on lines 189-190, leaving the plugin-default branch of lines 225-227
unreachable; a declared non-empty executor is used as-is. -/
theorem C1_executor_resolution (u : String → Bool) (plugins : Plugins)
    (nm : String) (c : OperationContent) (ec : Nat) (pm : String)
    (rb : Option String) (P : String) (info : PluginInfo)
    (hm : c.implementation ≠ "")
    (hcand : candidatePlugins plugins c.implementation = [P])
    (_hlookup : plugins.lookup P = some info) :
    (c.executor = none →
      (process_operation u plugins nm c ec pm rb false).result =
        .ok (.op (_operation nm P (pySlice c.implementation (P.length + 1))
          c.inputs LOCAL_AGENT c.max_retries c.retry_interval)))
    ∧ (∀ e, e ≠ "" → c.executor = some e →
      (process_operation u plugins nm c ec pm rb false).result =
        .ok (.op (_operation nm P (pySlice c.implementation (P.length + 1))
          c.inputs e c.max_retries c.retry_interval))) := by
  have hm2 : mappingOf c false ≠ "" := by simpa [mappingOf] using hm
  have hc2 : candidatePlugins plugins (mappingOf c false) = [P] := by
    simpa [mappingOf] using hcand
  have hpo := process_operation_single u plugins nm c ec pm rb false P hm2 hc2
  constructor
  · intro hex
    rw [hpo]
    simp [mappingOf, payloadOf, strOr, hex]
  · intro e he hex
    rw [hpo]
    simp [mappingOf, payloadOf, strOr, hex, he]

/-- C1 (amended) witness: same registry as the counterexample; the
undeclared executor resolves to local-agent. -/
theorem C1_executor_resolution_witness :
    ("p1.run" : String) ≠ ""
    ∧ candidatePlugins [("p1", ⟨some "host_agent"⟩)] "p1.run" = ["p1"]
    ∧ (process_operation (fun _ => false) [("p1", ⟨some "host_agent"⟩)]
        "op" { implementation := "p1.run", inputs := some [] } 10 "" none
        false).result =
      .ok (.op (_operation "op" "p1" (pySlice "p1.run" ("p1".length + 1))
        (some []) LOCAL_AGENT none none)) :=
  ⟨by decide, rfl,
   (C1_executor_resolution (fun _ => false) [("p1", ⟨some "host_agent"⟩)]
     "op" { implementation := "p1.run", inputs := some [] } 10 "" none
     "p1" ⟨some "host_agent"⟩ (by decide) rfl rfl).1 rfl⟩

/-- C6: with zero plugin-prefix matches, a supplied resource base, an
existing resource at `resource_base/mapping`, and a registered script
plugin (and no reserved-key collision), `process_operation` returns a
descriptor whose plugin is the script plugin, whose operation is the
fixed run-script task identifier (operations) or the
execute-workflow-script task identifier (workflows), and whose payload
holds the original mapping under the reserved script-path key — bare for
operations, wrapped as a default-plus-description record for workflows;
with zero matches but the resource condition false, the fallback is not
taken and the caller-supplied unresolved-mapping error is raised
instead. -/
theorem C6_script_fallback (u : String → Bool) (plugins : Plugins)
    (nm : String) (c : OperationContent) (ec : Nat) (pm : String)
    (rb : Option String) (wfs : Bool)
    (hm : mappingOf c wfs ≠ "")
    (hcand : candidatePlugins plugins (mappingOf c wfs) = []) :
    (resourceFallbackCondition u rb (mappingOf c wfs) = true →
      hasKey (payloadOrEmpty (payloadOf c wfs)) SCRIPT_PATH_PROPERTY = false →
      hasKey plugins SCRIPT_PLUGIN_NAME = true →
      (process_operation u plugins nm c ec pm rb wfs).result =
        (if wfs then
          .ok (.wf (_workflow_operation SCRIPT_PLUGIN_NAME
            SCRIPT_PLUGIN_EXECUTE_WORKFLOW_TASK
            (some (dictSet (payloadOrEmpty (payloadOf c wfs))
              SCRIPT_PATH_PROPERTY
              (workflowScriptParameter (mappingOf c wfs))))))
         else
          .ok (.op (_operation nm SCRIPT_PLUGIN_NAME SCRIPT_PLUGIN_RUN_TASK
            (some (dictSet (payloadOrEmpty (payloadOf c wfs))
              SCRIPT_PATH_PROPERTY (.vStr (mappingOf c wfs))))
            (strOr c.executor LOCAL_AGENT)
            c.max_retries c.retry_interval))))
    ∧ (resourceFallbackCondition u rb (mappingOf c wfs) = false →
      (process_operation u plugins nm c ec pm rb wfs).result =
        .error (.dslParsingLogicException ec
          (couldNotExtractMessage (mappingOf c wfs) nm wfs ++ pm)))
    ∧ (resourceFallbackCondition u rb (mappingOf c wfs) = true →
      hasKey (payloadOrEmpty (payloadOf c wfs)) SCRIPT_PATH_PROPERTY = false →
      hasKey plugins SCRIPT_PLUGIN_NAME = false →
      (process_operation u plugins nm c ec pm rb wfs).result =
        .error (.dslParsingLogicException 61
          (missingScriptPluginMessage
            (if wfs then SCRIPT_PLUGIN_EXECUTE_WORKFLOW_TASK
             else SCRIPT_PLUGIN_RUN_TASK) wfs nm))) := by
  refine ⟨fun hres hcol hscript => ?_, fun hres => ?_,
    fun hres hcol hscript => ?_⟩
  · rw [process_operation_fallback u plugins nm c ec pm rb wfs
      hm hcand hres hcol hscript]
  · rw [process_operation_unresolved u plugins nm c ec pm rb wfs
      hm hcand hres]
  · rw [process_operation_noscript u plugins nm c ec pm rb wfs
      hm hcand hres hcol hscript]

/-- C6 witness: mapping `scripts/install.sh`, no plugin prefix match, an
existing resource under base `base`, script plugin registered — run in
both modes, plus the unresolved error when the resource is missing. -/
theorem C6_script_fallback_witness :
    resourceFallbackCondition (fun _ => true) (some "base")
      (mappingOf { implementation := "scripts/install.sh",
                   mapping := "scripts/install.sh", inputs := some [],
                   parameters := some [] } false) = true
    ∧ (process_operation (fun _ => true) [("script", ⟨none⟩)] "op"
        { implementation := "scripts/install.sh",
          mapping := "scripts/install.sh", inputs := some [],
          parameters := some [] } 10 "" (some "base") false).result =
      .ok (.op (_operation "op" SCRIPT_PLUGIN_NAME SCRIPT_PLUGIN_RUN_TASK
        (some [(SCRIPT_PATH_PROPERTY, .vStr "scripts/install.sh")])
        (strOr none LOCAL_AGENT) none none))
    ∧ (process_operation (fun _ => true) [("script", ⟨none⟩)] "op"
        { implementation := "scripts/install.sh",
          mapping := "scripts/install.sh", inputs := some [],
          parameters := some [] } 10 "" (some "base") true).result =
      .ok (.wf (_workflow_operation SCRIPT_PLUGIN_NAME
        SCRIPT_PLUGIN_EXECUTE_WORKFLOW_TASK
        (some [(SCRIPT_PATH_PROPERTY,
                workflowScriptParameter "scripts/install.sh")])))
    ∧ (process_operation (fun _ => false) [("script", ⟨none⟩)] "op"
        { implementation := "scripts/install.sh",
          mapping := "scripts/install.sh", inputs := some [],
          parameters := some [] } 10 " extra" (some "base") false).result =
      .error (.dslParsingLogicException 10
        (couldNotExtractMessage "scripts/install.sh" "op" false ++
          " extra")) :=
  ⟨rfl,
   by
    have h := (C6_script_fallback (fun _ => true) [("script", ⟨none⟩)] "op"
      { implementation := "scripts/install.sh",
        mapping := "scripts/install.sh", inputs := some [],
        parameters := some [] } 10 "" (some "base") false (by decide)
      rfl).1 rfl rfl rfl
    simpa using h,
   by
    have h := (C6_script_fallback (fun _ => true) [("script", ⟨none⟩)] "op"
      { implementation := "scripts/install.sh",
        mapping := "scripts/install.sh", inputs := some [],
        parameters := some [] } 10 "" (some "base") true (by decide)
      rfl).1 rfl rfl rfl
    simpa using h,
   by
    have h := (C6_script_fallback (fun _ => false) [("script", ⟨none⟩)] "op"
      { implementation := "scripts/install.sh",
        mapping := "scripts/install.sh", inputs := some [],
        parameters := some [] } 10 " extra" (some "base") false (by decide)
      rfl).2.1 rfl
    simpa using h⟩

/-- C7: on the script-resource fallback path the caller's original
payload object is structurally unchanged after the call — the reserved
script-path entry is injected only into the deep copy carried by the
returned descriptor, never into the argument (which still lacks the
reserved key afterwards). -/
theorem C7_payload_not_mutated (u : String → Bool) (plugins : Plugins)
    (nm : String) (c : OperationContent) (ec : Nat) (pm : String)
    (rb : Option String)
    (hm : c.implementation ≠ "")
    (hcand : candidatePlugins plugins c.implementation = [])
    (hres : resourceFallbackCondition u rb c.implementation = true)
    (hcol : hasKey (payloadOrEmpty c.inputs) SCRIPT_PATH_PROPERTY = false)
    (hscript : hasKey plugins SCRIPT_PLUGIN_NAME = true) :
    (process_operation u plugins nm c ec pm rb false).callerPayload
      = c.inputs
    ∧ (process_operation u plugins nm c ec pm rb false).result =
        .ok (.op (_operation nm SCRIPT_PLUGIN_NAME SCRIPT_PLUGIN_RUN_TASK
          (some (dictSet (payloadOrEmpty c.inputs) SCRIPT_PATH_PROPERTY
            (.vStr c.implementation)))
          (strOr c.executor LOCAL_AGENT) c.max_retries c.retry_interval))
    ∧ hasKey (dictSet (payloadOrEmpty c.inputs) SCRIPT_PATH_PROPERTY
        (.vStr c.implementation)) SCRIPT_PATH_PROPERTY = true
    ∧ hasKey (payloadOrEmpty c.inputs) SCRIPT_PATH_PROPERTY = false := by
  have hm2 : mappingOf c false ≠ "" := by simpa [mappingOf] using hm
  have hc2 : candidatePlugins plugins (mappingOf c false) = [] := by
    simpa [mappingOf] using hcand
  have hres2 : resourceFallbackCondition u rb (mappingOf c false) = true := by
    simpa [mappingOf] using hres
  have hcol2 : hasKey (payloadOrEmpty (payloadOf c false))
      SCRIPT_PATH_PROPERTY = false := by
    simpa [payloadOf] using hcol
  have hpo := process_operation_fallback u plugins nm c ec pm rb false
    hm2 hc2 hres2 hcol2 hscript
  refine ⟨?_, ?_, hasKey_dictSet _ _ _, hcol⟩
  · rw [hpo]
    simp [payloadOf]
  · rw [hpo]
    simp [mappingOf, payloadOf]

/-- C7 witness: the spec's script-fallback example with a non-empty
caller payload; the payload object after the call equals the one passed
in and lacks the reserved key, while the descriptor's copy holds it. -/
theorem C7_payload_not_mutated_witness :
    hasKey (payloadOrEmpty (some [("x", PVal.vStr "1")]))
      SCRIPT_PATH_PROPERTY = false
    ∧ (process_operation (fun _ => true) [("script", ⟨none⟩)] "op"
        { implementation := "scripts/install.sh",
          inputs := some [("x", PVal.vStr "1")] } 10 "" (some "base")
        false).callerPayload = some [("x", PVal.vStr "1")]
    ∧ (process_operation (fun _ => true) [("script", ⟨none⟩)] "op"
        { implementation := "scripts/install.sh",
          inputs := some [("x", PVal.vStr "1")] } 10 "" (some "base")
        false).result =
      .ok (.op (_operation "op" SCRIPT_PLUGIN_NAME SCRIPT_PLUGIN_RUN_TASK
        (some [("x", PVal.vStr "1"),
               (SCRIPT_PATH_PROPERTY, PVal.vStr "scripts/install.sh")])
        (strOr none LOCAL_AGENT) none none)) :=
  ⟨rfl,
   (C7_payload_not_mutated (fun _ => true) [("script", ⟨none⟩)] "op"
     { implementation := "scripts/install.sh",
       inputs := some [("x", PVal.vStr "1")] } 10 "" (some "base")
     (by decide) rfl rfl rfl rfl).1,
   by
    have h := (C7_payload_not_mutated (fun _ => true) [("script", ⟨none⟩)]
      "op" { implementation := "scripts/install.sh",
             inputs := some [("x", PVal.vStr "1")] } 10 "" (some "base")
      (by decide) rfl rfl rfl rfl).2.1
    simpa using h⟩

/-- C8: when the script-resource fallback path is reached and the payload
already contains the reserved script-path key, `process_operation` raises
the reserved-property-collision document error
(`DSLParsingLogicException(60, ...)`) and returns no descriptor. -/
theorem C8_reserved_key_collision (u : String → Bool) (plugins : Plugins)
    (nm : String) (c : OperationContent) (ec : Nat) (pm : String)
    (rb : Option String) (wfs : Bool)
    (hm : mappingOf c wfs ≠ "")
    (hcand : candidatePlugins plugins (mappingOf c wfs) = [])
    (hres : resourceFallbackCondition u rb (mappingOf c wfs) = true)
    (hcol : hasKey (payloadOrEmpty (payloadOf c wfs)) SCRIPT_PATH_PROPERTY
      = true) :
    (process_operation u plugins nm c ec pm rb wfs).result =
      .error (.dslParsingLogicException 60
        (scriptPathCollisionMessage (mappingOf c wfs) wfs nm)) := by
  rw [process_operation_collision u plugins nm c ec pm rb wfs
    hm hcand hres hcol]

/-- C8 witness: the payload already declares `script_path`; resolution
raises error 60. -/
theorem C8_reserved_key_collision_witness :
    hasKey (payloadOrEmpty (payloadOf
      { implementation := "scripts/install.sh",
        inputs := some [(SCRIPT_PATH_PROPERTY, PVal.vStr "x")] } false))
      SCRIPT_PATH_PROPERTY = true
    ∧ (process_operation (fun _ => true) [("script", ⟨none⟩)] "op"
        { implementation := "scripts/install.sh",
          inputs := some [(SCRIPT_PATH_PROPERTY, PVal.vStr "x")] } 10 ""
        (some "base") false).result =
      .error (.dslParsingLogicException 60
        (scriptPathCollisionMessage "scripts/install.sh" false "op")) :=
  ⟨rfl,
   by
    have h := C8_reserved_key_collision (fun _ => true) [("script", ⟨none⟩)]
      "op" { implementation := "scripts/install.sh",
             inputs := some [(SCRIPT_PATH_PROPERTY, PVal.vStr "x")] } 10 ""
      (some "base") false (by decide) rfl rfl rfl
    simpa using h⟩

/-- C10: when the script-resource fallback is reached with a `None` (or
otherwise falsy) payload, the payload is treated as an empty dict, so the
returned descriptor's inputs (operations) or parameters (workflows)
contain exactly one entry: the reserved script-path key bound to the
original mapping string — for workflows, to its default-plus-description
record. -/
theorem C10_falsy_payload (u : String → Bool) (plugins : Plugins)
    (nm : String) (c : OperationContent) (ec : Nat) (pm : String)
    (rb : Option String) (wfs : Bool)
    (hm : mappingOf c wfs ≠ "")
    (hcand : candidatePlugins plugins (mappingOf c wfs) = [])
    (hres : resourceFallbackCondition u rb (mappingOf c wfs) = true)
    (hfalsy : payloadOrEmpty (payloadOf c wfs) = [])
    (hscript : hasKey plugins SCRIPT_PLUGIN_NAME = true) :
    (process_operation u plugins nm c ec pm rb wfs).result =
      (if wfs then
        .ok (.wf (_workflow_operation SCRIPT_PLUGIN_NAME
          SCRIPT_PLUGIN_EXECUTE_WORKFLOW_TASK
          (some [(SCRIPT_PATH_PROPERTY,
                  workflowScriptParameter (mappingOf c wfs))])))
       else
        .ok (.op (_operation nm SCRIPT_PLUGIN_NAME SCRIPT_PLUGIN_RUN_TASK
          (some [(SCRIPT_PATH_PROPERTY, .vStr (mappingOf c wfs))])
          (strOr c.executor LOCAL_AGENT)
          c.max_retries c.retry_interval))) := by
  have hcol : hasKey (payloadOrEmpty (payloadOf c wfs)) SCRIPT_PATH_PROPERTY
      = false := by rw [hfalsy]; rfl
  rw [process_operation_fallback u plugins nm c ec pm rb wfs
    hm hcand hres hcol hscript]
  rw [hfalsy]
  rfl

/-- C10 witness: `None` payload in both modes. -/
theorem C10_falsy_payload_witness :
    payloadOrEmpty (payloadOf
      { implementation := "scripts/install.sh",
        mapping := "scripts/install.sh" } false) = []
    ∧ (process_operation (fun _ => true) [("script", ⟨none⟩)] "op"
        { implementation := "scripts/install.sh",
          mapping := "scripts/install.sh" } 10 "" (some "base")
        false).result =
      .ok (.op (_operation "op" SCRIPT_PLUGIN_NAME SCRIPT_PLUGIN_RUN_TASK
        (some [(SCRIPT_PATH_PROPERTY, PVal.vStr "scripts/install.sh")])
        (strOr none LOCAL_AGENT) none none))
    ∧ (process_operation (fun _ => true) [("script", ⟨none⟩)] "op"
        { implementation := "scripts/install.sh",
          mapping := "scripts/install.sh" } 10 "" (some "base")
        true).result =
      .ok (.wf (_workflow_operation SCRIPT_PLUGIN_NAME
        SCRIPT_PLUGIN_EXECUTE_WORKFLOW_TASK
        (some [(SCRIPT_PATH_PROPERTY,
                workflowScriptParameter "scripts/install.sh")]))) :=
  ⟨rfl,
   by
    have h := C10_falsy_payload (fun _ => true) [("script", ⟨none⟩)] "op"
      { implementation := "scripts/install.sh",
        mapping := "scripts/install.sh" } 10 "" (some "base") false
      (by decide) rfl rfl rfl rfl
    simpa using h,
   by
    have h := C10_falsy_payload (fun _ => true) [("script", ⟨none⟩)] "op"
      { implementation := "scripts/install.sh",
        mapping := "scripts/install.sh" } 10 "" (some "base") true
      (by decide) rfl rfl rfl rfl
    simpa using h⟩

/-- With the gate enabled, the retry-count validator first runs the
minimum-version check and then the bound check. -/
theorem maxRetries_validate_gate_true (name : String) (v : Int)
    (version : Nat × Nat) :
    OperationMaxRetries.validate name (some v) version true =
      match Element.validate_version version (1, 1) with
      | .error e => .error e
      | .ok _ =>
        if v < -1 then
          .error (.valueError (maxRetriesBoundMessage name v))
        else .ok () := rfl

/-- With the gate disabled, the retry-count validator is exactly the
bound check. -/
theorem maxRetries_validate_gate_false (name : String) (v : Int)
    (version : Nat × Nat) :
    OperationMaxRetries.validate name (some v) version false =
      (if v < -1 then
        .error (.valueError (maxRetriesBoundMessage name v))
       else .ok ()) := rfl

/-- With the gate enabled, the retry-interval validator first runs the
minimum-version check and then the bound check. -/
theorem retryInterval_validate_gate_true (name : String) (r : Rat)
    (version : Nat × Nat) :
    OperationRetryInterval.validate name (some r) version true =
      match Element.validate_version version (1, 1) with
      | .error e => .error e
      | .ok _ =>
        if r < 0 then
          .error (.valueError (retryIntervalBoundMessage name r))
        else .ok () := rfl

/-- With the gate disabled, the retry-interval validator is exactly the
bound check. -/
theorem retryInterval_validate_gate_false (name : String) (r : Rat)
    (version : Nat × Nat) :
    OperationRetryInterval.validate name (some r) version false =
      (if r < 0 then
        .error (.valueError (retryIntervalBoundMessage name r))
       else .ok ()) := rfl

/-- C2 counterexample: a declared `max_retries` of −2 (and a declared
`retry_interval` of −1) makes the validator raise a plain `ValueError`
carrying only a message — not the structured numeric-code-carrying
exception kind used for document errors — refuting the claim that bound
violations use that single structured kind. -/
theorem C2_counterexample :
    OperationMaxRetries.validate "max_retries" (some (-2)) (1, 1) true
      = .error (.valueError ("\x27max_retries\x27 value must be either " ++
        "-1 to specify unlimited retries or a non negative number but " ++
        "got -2."))
    ∧ raisesStructuredCode
        (OperationMaxRetries.validate "max_retries" (some (-2)) (1, 1) true)
      = false
    ∧ OperationRetryInterval.validate "retry_interval" (some (-1)) (1, 1)
        true
      = .error (.valueError ("\x27retry_interval\x27 value must be a " ++
        "non negative number but got -1."))
    ∧ raisesStructuredCode
        (OperationRetryInterval.validate "retry_interval" (some (-1)) (1, 1)
          true) = false :=
  ⟨rfl, rfl, rfl, rfl⟩

/-- C2 (amended): for every declared `max_retries` below −1 and every
declared negative `retry_interval` (with the minimum-version check not
failing first), the validator fails — but by raising a plain `ValueError`
with a formatted message and no numeric error code, not the structured
document-error exception kind. -/
theorem C2_bound_errors (name : String) (version : Nat × Nat) (gate : Bool)
    (hv : versionTooLow version (1, 1) = false) :
    (∀ v : Int, v < -1 →
      OperationMaxRetries.validate name (some v) version gate =
        .error (.valueError (maxRetriesBoundMessage name v)))
    ∧ (∀ r : Rat, r < 0 →
      OperationRetryInterval.validate name (some r) version gate =
        .error (.valueError (retryIntervalBoundMessage name r))) := by
  have hvv : Element.validate_version version (1, 1) = .ok () := by
    unfold Element.validate_version
    rw [hv]
    rfl
  constructor
  · intro v h
    cases gate with
    | false => rw [maxRetries_validate_gate_false, if_pos h]
    | true =>
      rw [maxRetries_validate_gate_true, hvv]
      exact if_pos h
  · intro r h
    cases gate with
    | false => rw [retryInterval_validate_gate_false, if_pos h]
    | true =>
      rw [retryInterval_validate_gate_true, hvv]
      exact if_pos h

/-- C2 (amended) witness: `max_retries = −2` and `retry_interval = −1` at
version 1.1 with the gate enabled. -/
theorem C2_bound_errors_witness :
    versionTooLow (1, 1) (1, 1) = false
    ∧ ((-2 : Int) < -1)
    ∧ OperationMaxRetries.validate "max_retries" (some (-2)) (1, 1) true =
        .error (.valueError (maxRetriesBoundMessage "max_retries" (-2)))
    ∧ OperationRetryInterval.validate "retry_interval" (some (-1)) (1, 1)
        true =
        .error (.valueError
          (retryIntervalBoundMessage "retry_interval" (-1))) :=
  ⟨rfl, by decide,
   (C2_bound_errors "max_retries" (1, 1) true rfl).1 (-2) (by decide),
   (C2_bound_errors "retry_interval" (1, 1) true rfl).2 (-1) (by decide)⟩

/-- C9: an undeclared retry field always passes, at every version and
gate; with the version gate enabled, a declared value at a document
version below 1.1 fails the minimum-version check; with the gate
disabled, the minimum-version check is entirely skipped (the outcome is
independent of the version) while the bound checks (`max_retries ≥ −1`,
`retry_interval ≥ 0`) still apply at every version. -/
theorem C9_version_gate (name : String) (version : Nat × Nat) :
    (∀ g, OperationMaxRetries.validate name none version g = .ok ()
      ∧ OperationRetryInterval.validate name none version g = .ok ())
    ∧ (∀ v : Int, versionTooLow version (1, 1) = true →
      OperationMaxRetries.validate name (some v) version true =
        .error (.versionMismatch version (1, 1)))
    ∧ (∀ r : Rat, versionTooLow version (1, 1) = true →
      OperationRetryInterval.validate name (some r) version true =
        .error (.versionMismatch version (1, 1)))
    ∧ (∀ ov v2, OperationMaxRetries.validate name ov version false =
        OperationMaxRetries.validate name ov v2 false)
    ∧ (∀ orr v2, OperationRetryInterval.validate name orr version false =
        OperationRetryInterval.validate name orr v2 false)
    ∧ (∀ v : Int, -1 ≤ v →
      OperationMaxRetries.validate name (some v) version false = .ok ())
    ∧ (∀ v : Int, v < -1 →
      OperationMaxRetries.validate name (some v) version false =
        .error (.valueError (maxRetriesBoundMessage name v)))
    ∧ (∀ r : Rat, 0 ≤ r →
      OperationRetryInterval.validate name (some r) version false = .ok ())
    ∧ (∀ r : Rat, r < 0 →
      OperationRetryInterval.validate name (some r) version false =
        .error (.valueError (retryIntervalBoundMessage name r))) := by
  have hvv : versionTooLow version (1, 1) = true →
      Element.validate_version version (1, 1) =
        .error (.versionMismatch version (1, 1)) := by
    intro h
    unfold Element.validate_version
    rw [h]
    rfl
  refine ⟨fun g => ⟨rfl, rfl⟩, fun v h => ?_, fun r h => ?_,
    fun ov v2 => ?_, fun orr v2 => ?_, fun v h => ?_, fun v h => ?_,
    fun r h => ?_, fun r h => ?_⟩
  · rw [maxRetries_validate_gate_true, hvv h]
  · rw [retryInterval_validate_gate_true, hvv h]
  · cases ov <;> rfl
  · cases orr <;> rfl
  · rw [maxRetries_validate_gate_false, if_neg (not_lt.mpr h)]
  · rw [maxRetries_validate_gate_false, if_pos h]
  · rw [retryInterval_validate_gate_false, if_neg (not_lt.mpr h)]
  · rw [retryInterval_validate_gate_false, if_pos h]

/-- C9 witness: version 1.0 with the gate on fails the minimum-version
check; with the gate off the same declaration is only bound-checked. -/
theorem C9_version_gate_witness :
    versionTooLow (1, 0) (1, 1) = true
    ∧ OperationMaxRetries.validate "max_retries" (some 5) (1, 0) true =
        .error (.versionMismatch (1, 0) (1, 1))
    ∧ OperationRetryInterval.validate "retry_interval" (some 5) (1, 0)
        true = .error (.versionMismatch (1, 0) (1, 1))
    ∧ ((-1 : Int) ≥ -1)
    ∧ OperationMaxRetries.validate "max_retries" (some (-1)) (1, 0) false
        = .ok ()
    ∧ OperationMaxRetries.validate "max_retries" none (1, 0) true = .ok ()
    ∧ OperationRetryInterval.validate "retry_interval" (some 0) (1, 0)
        false = .ok () :=
  ⟨rfl,
   (C9_version_gate "max_retries" (1, 0)).2.1 5 rfl,
   (C9_version_gate "retry_interval" (1, 0)).2.2.1 5 rfl,
   by decide,
   (C9_version_gate "max_retries" (1, 0)).2.2.2.2.2.1 (-1) (by decide),
   ((C9_version_gate "max_retries" (1, 0)).1 true).1,
   (C9_version_gate "retry_interval" (1, 0)).2.2.2.2.2.2.2.1 0 (by decide)⟩
